import Mathlib

/-!
# VibAura playback engine — verification of the specification against the source

Shallow embedding of the playback core of the VibAura music-streaming client:

* `frontend/scripts/player/playerState.js` — queue state (`_playlist`,
  `_currentSongIndex`, `_isShuffleOn`) and its API (`setPlaylist`, `nextSong`,
  `prevSong`, `toggleShuffle`, `getCurrentSong`, `isPlaylistEmpty`);
* the player controller (`loadSong`, `playSong`, `pauseSong`, `playNextSong`,
  `updateProgress`, `handleTouchStart` / `handleTouchEnd`,
  `playSongFromPlaylist`, `initPlayer`, and the drag-state listeners);
* `frontend/scripts/utils/utils.js` — `formatTime`.

JavaScript numeric corner cases that the claims touch are modelled explicitly:
`x % 0` is `NaN`, an out-of-range or `NaN` array index reads `undefined`
(here `Option.none`), and `Math.floor(Math.random() * len)` is modelled by
`Int.floor (r * len)` for a draw `r` with `0 ≤ r < 1`.
-/

namespace VibAura

/-- A song object as consumed by the player (`title`, `fileUrl`, `artworkUrl`;
artist data is irrelevant to the queue algorithms and elided). -/
structure Song where
  title : String
  fileUrl : String
  artworkUrl : String
  deriving Repr, DecidableEq

/-- A JavaScript number used as the queue cursor `_currentSongIndex`: either an
integer or `NaN` (which arises from `x % 0` on an empty playlist). -/
inductive JsIdx where
  | num (n : Int)
  | nan
  deriving Repr, DecidableEq

/-- JS addition on the cursor: `NaN + m = NaN`. -/
def jsAdd : JsIdx → Int → JsIdx
  | .num n, m => .num (n + m)
  | .nan, _ => .nan

/-- JS remainder `x % m` on the cursor: `NaN` if the dividend is `NaN` or the
divisor is `0`; otherwise truncated remainder (`Int.tmod`), which agrees with
JavaScript `%`. -/
def jsMod : JsIdx → Int → JsIdx
  | .nan, _ => .nan
  | .num n, m => if m = 0 then .nan else .num (Int.tmod n m)

/-- JS array read `_playlist[i]`: `undefined` (`none`) when the index is `NaN`,
negative, or out of range. -/
def jsIndex (l : List Song) : JsIdx → Option Song
  | .nan => none
  | .num n => if n < 0 then none else l[n.toNat]?

/-- The closure state of `playerState.js`: `_playlist`, `_currentSongIndex`,
`_isShuffleOn`. -/
structure PState where
  playlist : List Song
  currentIndex : JsIdx
  isShuffleOn : Bool
  deriving Repr, DecidableEq

/-- `state.setPlaylist(newPlaylist, index)`:
`_playlist = newPlaylist; _currentSongIndex = index;`. -/
def setPlaylist (newPlaylist : List Song) (index : Int) (s : PState) : PState :=
  { s with playlist := newPlaylist, currentIndex := .num index }

/-- `state.nextSong()`. With shuffle on the new index is
`Math.floor(Math.random() * _playlist.length)` (`r` is the `Math.random()`
draw); with shuffle off it is `(_currentSongIndex + 1) % _playlist.length`.
Returns `_playlist[_currentSongIndex]` read after the update. -/
def nextSong (r : ℚ) (s : PState) : PState × Option Song :=
  let idx : JsIdx :=
    if s.isShuffleOn then
      .num (Int.floor (r * (s.playlist.length : ℚ)))
    else
      jsMod (jsAdd s.currentIndex 1) (s.playlist.length : Int)
  let s2 := { s with currentIndex := idx }
  (s2, jsIndex s2.playlist idx)

/-- `state.prevSong()`: the new index is
`(_currentSongIndex - 1 + _playlist.length) % _playlist.length`, with no
shuffle branch; returns `_playlist[_currentSongIndex]` after the update. -/
def prevSong (s : PState) : PState × Option Song :=
  let idx := jsMod (jsAdd (jsAdd s.currentIndex (-1)) (s.playlist.length : Int))
    (s.playlist.length : Int)
  let s2 := { s with currentIndex := idx }
  (s2, jsIndex s2.playlist idx)

/-- `state.toggleShuffle()`: flips `_isShuffleOn` and returns the new flag. -/
def toggleShuffle (s : PState) : PState × Bool :=
  let s2 := { s with isShuffleOn := !s.isShuffleOn }
  (s2, s2.isShuffleOn)

/-- `state.getCurrentSong()`: `_playlist[_currentSongIndex]`. -/
def getCurrentSong (s : PState) : Option Song :=
  jsIndex s.playlist s.currentIndex

/-- `state.isPlaylistEmpty()`: `_playlist.length === 0`. -/
def isPlaylistEmpty (s : PState) : Bool :=
  s.playlist.length == 0

/-! ## `utils.js` — `formatTime` -/

/-- `formatTime(seconds)` from `utils.js`: floors the seconds, computes
`minutes = Math.floor(flooredSeconds / 60)` and `secs = flooredSeconds % 60`,
and renders the string with a zero pad when `secs < 10`. -/
def formatTime (seconds : ℚ) : String :=
  let flooredSeconds : Int := Int.floor seconds
  let minutes : Int := Int.floor ((flooredSeconds : ℚ) / 60)
  let secs : Int := Int.tmod flooredSeconds 60
  toString minutes ++ ":" ++ (if secs < 10 then "0" else "") ++ toString secs

/-! ## Controller — progress display and drag-seek suppression -/

/-- The `<audio>` element's fields read by `updateProgress`. `duration` is
`none` while the metadata is not loaded (JavaScript `NaN`); `some 0` models a
zero duration — both are falsy under `if (duration)`. -/
structure AudioState where
  duration : Option ℚ
  currentTime : ℚ
  deriving Repr, DecidableEq

/-- JavaScript truthiness of `dom.audio.duration`: false for `NaN` (`none`)
and for `0`. -/
def durationTruthy : Option ℚ → Bool
  | none => false
  | some x => decide (x ≠ 0)

/-- The position display written by `updateProgress`: both progress-bar input
values (mini and fullscreen) and both current-time text fields. -/
structure Display where
  progressValue : ℚ
  fsProgressValue : ℚ
  timeText : String
  fsTimeText : String
  deriving Repr, DecidableEq

/-- `updateProgress()`: returns immediately when `isDragging`; otherwise, when
`duration` is truthy, writes `progressPercent = currentTime / duration * 100`
to both bars and `formatTime(currentTime)` to both time texts; when `duration`
is falsy nothing is written. -/
def updateProgress (isDragging : Bool) (audio : AudioState) (d : Display) : Display :=
  if isDragging then d
  else if durationTruthy audio.duration then
    let dur := audio.duration.getD 0
    let progressPercent := audio.currentTime / dur * 100
    let formattedTime := formatTime audio.currentTime
    { progressValue := progressPercent, fsProgressValue := progressPercent,
      timeText := formattedTime, fsTimeText := formattedTime }
  else d

/-- The drag-seek substate wired in `initPlayer`: the module-level `isDragging`
flag together with the position display. -/
structure SeekUI where
  isDragging : Bool
  display : Display
  deriving Repr, DecidableEq

/-- `startDrag` (mousedown/touchstart on a progress bar): `isDragging = true`. -/
def startDrag (s : SeekUI) : SeekUI :=
  { s with isDragging := true }

/-- `endDrag` (mouseup/touchend/change on a progress bar): `isDragging = false`. -/
def endDrag (s : SeekUI) : SeekUI :=
  { s with isDragging := false }

/-- The `timeupdate` listener registered in `initPlayer`: runs `updateProgress`
against the current audio state. -/
def onTimeUpdate (audio : AudioState) (s : SeekUI) : SeekUI :=
  { s with display := updateProgress s.isDragging audio s.display }

/-! ## Controller — fullscreen swipe-to-close gesture -/

/-- Gesture state of the fullscreen player: the module-level `touchstartY` and
whether the `open` class is present. -/
structure GestureState where
  touchstartY : ℚ
  isOpen : Bool
  deriving Repr, DecidableEq

/-- `handleTouchStart(e)`: records `e.changedTouches[0].screenY` in
`touchstartY`. -/
def handleTouchStart (screenY : ℚ) (g : GestureState) : GestureState :=
  { g with touchstartY := screenY }

/-- `handleTouchEnd(e)`: with `touchEndY = e.changedTouches[0].screenY`, calls
`closeFullscreenPlayer()` (removes the `open` class) exactly when
`touchEndY > touchstartY + 100`; otherwise nothing happens. -/
def handleTouchEnd (screenY : ℚ) (g : GestureState) : GestureState :=
  if screenY > g.touchstartY + 100 then { g with isOpen := false } else g

/-! ## Controller — volume handler -/

/-- The volume-slider `input` listener from `initPlayer`:
`dom.audio.volume = e.target.value / 100` — the value forwarded to the audio
element, with no further transformation. -/
def volumeInputHandler (value : ℚ) : ℚ :=
  value / 100

/-! ## Controller — play / pause and the `play()` future -/

/-- Playback status as displayed by the icon state the controller writes
(`playing` = pause icons shown, disc spinning; `paused` = play icons shown). -/
inductive Status where
  | playing
  | paused
  deriving Repr, DecidableEq

/-- The icon/animation state written by `playSong` and `pauseSong`, plus
whether `dom.audio` is paused. -/
structure PlayerUI where
  playIconShown : Bool
  pauseIconShown : Bool
  fsPlayIconShown : Bool
  fsPauseIconShown : Bool
  discSpinning : Bool
  audioPaused : Bool
  deriving Repr, DecidableEq

/-- `pauseSong()`: pauses the audio, shows both play icons, hides both pause
icons, stops the disc rotation. -/
def pauseSong (_ui : PlayerUI) : PlayerUI :=
  { playIconShown := true, pauseIconShown := false,
    fsPlayIconShown := true, fsPauseIconShown := false,
    discSpinning := false, audioPaused := true }

/-- The UI writes of `playSong`'s success branch: hides both play icons, shows
both pause icons, starts the disc rotation. -/
def applyPlayingUI (_ui : PlayerUI) : PlayerUI :=
  { playIconShown := false, pauseIconShown := true,
    fsPlayIconShown := false, fsPauseIconShown := true,
    discSpinning := true, audioPaused := false }

/-- Outcome of the `dom.audio.play()` future. -/
inductive PlayOutcome where
  | fulfilled
  | rejected
  deriving Repr, DecidableEq

/-- Errors a JavaScript call can throw in this model. -/
inductive JsError where
  | typeError
  deriving Repr, DecidableEq

/-- `playSong()` with its `play()` future resolved with the given outcome:
on fulfilment the playing UI is applied; on rejection the `catch` block runs
`pauseSong()`. Alongside the final UI it returns the list of status
transitions the call applied, in order. The result is `Except.ok` in both
branches: the `catch` swallows the rejection. -/
def playSong (outcome : PlayOutcome) (ui : PlayerUI) :
    Except JsError (PlayerUI × List Status) :=
  match outcome with
  | .fulfilled => .ok (applyPlayingUI ui, [Status.playing])
  | .rejected => .ok (pauseSong ui, [Status.paused])

/-! ## Controller — `loadSong` and `playSongFromPlaylist` -/

/-- `loadSong(song)` reduced to its effect on the audio element: with a
defined song it ends by assigning `dom.audio.src = song.fileUrl`; called with
`undefined` (empty-queue read) it throws a `TypeError` at the
`song.artists` read, before any assignment. -/
def loadSong : Option Song → Except JsError String
  | none => .error .typeError
  | some song => .ok song.fileUrl

/-- Effects of a successful `playSongFromPlaylist`: the source loaded into the
audio element and whether `playSong()` was invoked. -/
structure PlayEffects where
  loadedSrc : Option String
  playAttempted : Bool
  deriving Repr, DecidableEq

/-- `playSongFromPlaylist(newPlaylist, index)`: runs `state.setPlaylist`, then
`loadSong(state.getCurrentSong())`, then `playSong()`. The `setPlaylist`
mutation persists even when `loadSong` throws; the thrown error propagates to
the caller and `playSong` is never reached. -/
def playSongFromPlaylist (newPlaylist : List Song) (index : Int) (s : PState) :
    PState × Except JsError PlayEffects :=
  let s2 := setPlaylist newPlaylist index s
  match loadSong (getCurrentSong s2) with
  | .error e => (s2, .error e)
  | .ok src => (s2, .ok { loadedSrc := some src, playAttempted := true })

/-! ## Controller — racing `play()` futures (event-loop trace model)

`playSong` is `async`: between `dom.audio.play()` and the resolution of its
future, other commands can run. The engine state tracks the loaded source,
the pending futures (each tagged with the source it was issued for), and the
observable playing/paused display. The resolution handlers in `playSong` are
exactly those above: the fulfilment branch applies the playing UI and the
`catch` branch runs `pauseSong`, in both cases without inspecting which track
the future belonged to. -/

/-- Engine state for the async trace model. `pending` lists the not yet
resolved `play()` futures, oldest first, each tagged with the `fileUrl` it was
issued for; `displayedPlaying` abstracts the icon/disc state (`true` iff the
pause icons are shown and the disc spins). -/
structure EngineState where
  loadedSrc : Option String
  pending : List String
  displayedPlaying : Bool
  deriving Repr, DecidableEq

/-- Events of the trace model: `playTrack src` is `loadSong` (assigning
`dom.audio.src = src`) followed by `playSong()` issuing a new `play()` future;
`resolve i ok` is the event loop delivering the resolution of the `i`-th
pending future, running the corresponding branch of `playSong`. -/
inductive EngineEv where
  | playTrack (src : String)
  | resolve (i : Nat) (ok : Bool)
  deriving Repr, DecidableEq

/-- One step of the trace model. On `resolve`, the handler mirrors the source:
it sets the playing display on fulfilment and the paused display on rejection,
unconditionally — there is no comparison of the future's track against
`loadedSrc`. -/
def engineStep (s : EngineState) : EngineEv → EngineState
  | .playTrack src =>
      { s with loadedSrc := some src, pending := s.pending ++ [src] }
  | .resolve i ok =>
      if i < s.pending.length then
        { s with pending := s.pending.eraseIdx i, displayedPlaying := ok }
      else s

/-- Run a list of events from a state. -/
def engineRun (s : EngineState) (evs : List EngineEv) : EngineState :=
  evs.foldl engineStep s

/-- The idle engine: nothing loaded, no pending future, paused display. -/
def engineInit : EngineState :=
  { loadedSrc := none, pending := [], displayedPlaying := false }

/-- `k`-fold iteration of `state.nextSong()` (the state part), with a fixed
`Math.random()` draw `r`. -/
def iterNext (r : ℚ) : Nat → PState → PState
  | 0, s => s
  | k + 1, s => iterNext r k (nextSong r s).1

/-! ## Demo values used by the witnesses -/

/-- Demo song A. -/
def demoA : Song := { title := "A", fileUrl := "a.mp3", artworkUrl := "a.jpg" }

/-- Demo song B. -/
def demoB : Song := { title := "B", fileUrl := "b.mp3", artworkUrl := "b.jpg" }

/-- Demo song C. -/
def demoC : Song := { title := "C", fileUrl := "c.mp3", artworkUrl := "c.jpg" }

/-- The demo playlist `[A, B, C]`. -/
def demo3 : List Song := [demoA, demoB, demoC]

/-- A blank position display. -/
def d0 : Display :=
  { progressValue := 0, fsProgressValue := 0, timeText := "0:00", fsTimeText := "0:00" }

/-- An engine state with track `b.mp3` loaded and playing while a stale
future for `a.mp3` is still pending. -/
def engineDemo : EngineState :=
  { loadedSrc := some "b.mp3", pending := ["a.mp3"], displayedPlaying := true }

/-! ## Lemmas about the queue algorithms -/

/-- With shuffle off and a non-empty playlist, one `nextSong` step replaces
the cursor `n` by `(n + 1) % len` and changes nothing else. -/
theorem nextSong_shuffleOff_step (r : ℚ) (s : PState) (n : Int)
    (hsh : s.isShuffleOn = false) (hlen : 0 < s.playlist.length)
    (hidx : s.currentIndex = .num n) (hn : 0 ≤ n) :
    (nextSong r s).1 =
      { s with currentIndex := .num ((n + 1) % (s.playlist.length : Int)) } := by
  have hZ : ((s.playlist.length : Int) = 0) = False := by
    simp only [eq_iff_iff, iff_false]
    omega
  have ht : Int.tmod (n + 1) (s.playlist.length : Int) =
      (n + 1) % (s.playlist.length : Int) :=
    Int.tmod_eq_emod (by omega) (by omega)
  simp [nextSong, hsh, hidx, jsAdd, jsMod, hZ, ht]

/-- Iterating `nextSong` `k` times with shuffle off advances the cursor to
`(n + k) % len`, leaving the playlist and the shuffle flag alone. -/
theorem iterNext_shuffleOff (r : ℚ) (k : Nat) (s : PState) (n : Int)
    (hsh : s.isShuffleOn = false) (hlen : 0 < s.playlist.length)
    (hidx : s.currentIndex = .num n) (hn : 0 ≤ n) (hlt : n < s.playlist.length) :
    (iterNext r k s).playlist = s.playlist ∧
    (iterNext r k s).isShuffleOn = false ∧
    (iterNext r k s).currentIndex = .num ((n + k) % (s.playlist.length : Int)) := by
  induction k generalizing s n with
  | zero =>
      refine ⟨rfl, hsh, ?_⟩
      show s.currentIndex = _
      rw [hidx]
      congr 1
      rw [Nat.cast_zero, add_zero, Int.emod_eq_of_lt hn hlt]
  | succ k ih =>
      have hstep := nextSong_shuffleOff_step r s n hsh hlen hidx hn
      have hm0 : 0 ≤ (n + 1) % (s.playlist.length : Int) :=
        Int.emod_nonneg _ (by omega)
      have hmlt : (n + 1) % (s.playlist.length : Int) < (s.playlist.length : Int) :=
        Int.emod_lt_of_pos _ (by omega)
      have ih2 := ih (nextSong r s).1 ((n + 1) % (s.playlist.length : Int))
        (by rw [hstep]; exact hsh) (by rw [hstep]; exact hlen)
        (by rw [hstep]) hm0 (by rw [hstep]; exact hmlt)
      have hiter : iterNext r (k + 1) s = iterNext r k (nextSong r s).1 := rfl
      rw [hiter, hstep] at *
      refine ⟨ih2.1, ih2.2.1, ?_⟩
      rw [ih2.2.2]
      show JsIdx.num (((n + 1) % (s.playlist.length : Int) + k) %
        (s.playlist.length : Int)) = _
      congr 1
      rw [Int.emod_add_emod]
      congr 1
      push_cast
      ring

/-- While `isDragging` is set, the `timeupdate` listener leaves the whole
seek-UI state unchanged, however many events arrive. -/
theorem foldl_onTimeUpdate_dragging (s : SeekUI) (as : List AudioState)
    (h : s.isDragging = true) :
    List.foldl (fun st a => onTimeUpdate a st) s as = s := by
  induction as generalizing s with
  | nil => rfl
  | cons a as ih =>
      rw [List.foldl_cons]
      have hstep : onTimeUpdate a s = s := by
        cases s
        simp_all [onTimeUpdate, updateProgress]
      rw [hstep]
      exact ih s h

/-! ## Claims -/

/-- Claim C1: while the user is dragging a seek control (`isDragging` set by
`startDrag`), every `timeupdate` event handled by `updateProgress` leaves the
displayed position (progress-bar values and time texts) unchanged; after the
drag ends (`endDrag`), the next `timeupdate` writes the freshly computed
display, which (when it differs from the stale one) does change it. -/
theorem seeking_suppresses_progress_updates (s : SeekUI) (as : List AudioState)
    (b : AudioState) (hne : updateProgress false b s.display ≠ s.display) :
    (List.foldl (fun st a => onTimeUpdate a st) (startDrag s) as).display = s.display ∧
    (onTimeUpdate b (endDrag (List.foldl (fun st a => onTimeUpdate a st)
      (startDrag s) as))).display = updateProgress false b s.display ∧
    (onTimeUpdate b (endDrag (List.foldl (fun st a => onTimeUpdate a st)
      (startDrag s) as))).display ≠ s.display := by
  have hfold := foldl_onTimeUpdate_dragging (startDrag s) as rfl
  rw [hfold]
  exact ⟨rfl, rfl, hne⟩

/-- Witness for C1 at a concrete input: a song with duration 200 at time 100s
yields a display (progress 50 %) that differs from the blank one, so the first
post-drag `timeupdate` changes the display that every in-drag update left
blank. -/
theorem seeking_suppresses_progress_updates_witness :
    updateProgress false { duration := some 200, currentTime := 100 } d0 ≠ d0 ∧
    (onTimeUpdate { duration := some 200, currentTime := 100 }
      (endDrag (List.foldl (fun st a => onTimeUpdate a st)
        (startDrag { isDragging := false, display := d0 })
        [{ duration := some 200, currentTime := 10 }]))).display ≠ d0 := by
  have hne : updateProgress false
      ({ duration := some 200, currentTime := 100 } : AudioState) d0 ≠ d0 := by
    intro hEq
    have h50 := congrArg Display.progressValue hEq
    simp [updateProgress, durationTruthy, d0] at h50
  exact ⟨hne, (seeking_suppresses_progress_updates
    { isDragging := false, display := d0 }
    [{ duration := some 200, currentTime := 10 }]
    { duration := some 200, currentTime := 100 } hne).2.2⟩

/-- Claim C2 counterexample: a `play()` future for track `a.mp3` is still
pending when track `b.mp3` is loaded and its own `play()` fulfils (pause icons
shown, disc spinning). The later delivery of the stale future's rejection runs
the `catch` branch (`pauseSong`) unconditionally and flips the displayed state
to paused even though `b.mp3` is still the loaded track — an observable state
transition caused by the stale future. -/
theorem stale_play_resolution_observable_cex :
    (engineRun engineInit
      [.playTrack "a.mp3", .playTrack "b.mp3", .resolve 1 true]).loadedSrc = some "b.mp3" ∧
    (engineRun engineInit
      [.playTrack "a.mp3", .playTrack "b.mp3", .resolve 1 true]).pending = ["a.mp3"] ∧
    (engineRun engineInit
      [.playTrack "a.mp3", .playTrack "b.mp3", .resolve 1 true]).displayedPlaying = true ∧
    (engineStep (engineRun engineInit
      [.playTrack "a.mp3", .playTrack "b.mp3", .resolve 1 true])
      (.resolve 0 false)).displayedPlaying = false ∧
    (engineStep (engineRun engineInit
      [.playTrack "a.mp3", .playTrack "b.mp3", .resolve 1 true])
      (.resolve 0 false)).loadedSrc = some "b.mp3" := by
  exact ⟨rfl, rfl, rfl, rfl, rfl⟩

/-- Claim C2 amended: the engine applies the resolution of every pending
`play()` future unconditionally — fulfilment shows the playing display,
rejection the paused display — with no check that the future belongs to the
currently loaded track; the loaded source is untouched. Hence the displayed
state always equals the outcome of the most recently *delivered* resolution
(last delivered wins), not necessarily that of the most recent track. -/
theorem resolution_applied_unconditionally (s : EngineState) (i : Nat) (ok : Bool)
    (h : i < s.pending.length) :
    (engineStep s (.resolve i ok)).displayedPlaying = ok ∧
    (engineStep s (.resolve i ok)).loadedSrc = s.loadedSrc := by
  simp [engineStep, h]

/-- Witness for the amended C2: with track `b.mp3` loaded and `a.mp3`'s stale
future still pending, delivering that stale rejection shows the paused
display. -/
theorem resolution_applied_unconditionally_witness :
    0 < engineDemo.pending.length ∧
    ((engineStep engineDemo (.resolve 0 false)).displayedPlaying = false ∧
     (engineStep engineDemo (.resolve 0 false)).loadedSrc = some "b.mp3") :=
  ⟨by decide, resolution_applied_unconditionally engineDemo 0 false (by decide)⟩

/-- Claim C3: when the `play()` future rejects, the rejection is caught
locally: `playSong` returns normally (`Except.ok`, no exception escapes), the
session reverts to the paused display (`pauseSong`: play icons shown, pause
icons hidden, disc stopped, audio paused), and the paused status transition is
applied exactly once. -/
theorem play_rejection_caught_reverts_paused (ui : PlayerUI) :
    playSong .rejected ui = Except.ok (pauseSong ui, [Status.paused]) ∧
    (pauseSong ui).playIconShown = true ∧
    (pauseSong ui).pauseIconShown = false ∧
    (pauseSong ui).discSpinning = false ∧
    (pauseSong ui).audioPaused = true ∧
    [Status.paused].count Status.paused = 1 := by
  exact ⟨rfl, rfl, rfl, rfl, rfl, rfl⟩

/-- Claim C4 at the failing input: `playSongFromPlaylist([], 0)` from a state
holding `[A]` first replaces the stored playlist with `[]` (a state change),
then `loadSong(undefined)` throws a `TypeError` at the `song.artists` read —
so the call raises an error and mutates state instead of being a no-op. No
source is loaded and no playback is attempted, because the throw happens
first. -/
theorem playSongFromPlaylist_empty_throws :
    (playSongFromPlaylist [] 0
      { playlist := [demoA], currentIndex := .num 0, isShuffleOn := false }).2 =
        Except.error JsError.typeError ∧
    (playSongFromPlaylist [] 0
      { playlist := [demoA], currentIndex := .num 0, isShuffleOn := false }).1 =
        { playlist := [], currentIndex := .num 0, isShuffleOn := false } ∧
    (playSongFromPlaylist [] 0
      { playlist := [demoA], currentIndex := .num 0, isShuffleOn := false }).1 ≠
        { playlist := [demoA], currentIndex := .num 0, isShuffleOn := false } := by
  refine ⟨rfl, rfl, ?_⟩
  decide

/-- Claim C5: for every non-empty playlist and valid cursor `n`, `prevSong`
sets the cursor to `(n - 1 + len) % len` and returns the track at that index,
and its result is identical whatever the shuffle flag is set to — it is
deterministic even with shuffle enabled. From index 0 the formula wraps to
`len - 1`. -/
theorem prevSong_modular_decrement_ignores_shuffle (s : PState) (b : Bool) (n : Int)
    (hlen : 0 < s.playlist.length) (hidx : s.currentIndex = .num n) (hn : 0 ≤ n) :
    (prevSong s).1.currentIndex =
      .num ((n - 1 + (s.playlist.length : Int)) % (s.playlist.length : Int)) ∧
    (prevSong s).2 =
      s.playlist[((n - 1 + (s.playlist.length : Int)) %
        (s.playlist.length : Int)).toNat]? ∧
    (prevSong { s with isShuffleOn := b }).1.currentIndex =
      (prevSong s).1.currentIndex ∧
    (prevSong { s with isShuffleOn := b }).2 = (prevSong s).2 := by
  have hlen0 : (s.playlist.length : Int) ≠ 0 := by omega
  have ht : Int.tmod (n + -1 + (s.playlist.length : Int)) (s.playlist.length : Int) =
      (n - 1 + (s.playlist.length : Int)) % (s.playlist.length : Int) := by
    rw [Int.tmod_eq_emod (by omega) (by omega)]
    congr 1
  have hm0 : 0 ≤ (n - 1 + (s.playlist.length : Int)) % (s.playlist.length : Int) :=
    Int.emod_nonneg _ hlen0
  have hkey : jsMod (jsAdd (jsAdd s.currentIndex (-1)) (s.playlist.length : Int))
      (s.playlist.length : Int) =
      .num ((n - 1 + (s.playlist.length : Int)) % (s.playlist.length : Int)) := by
    rw [hidx]
    show (if (s.playlist.length : Int) = 0 then JsIdx.nan
      else .num (Int.tmod (n + -1 + (s.playlist.length : Int))
        (s.playlist.length : Int))) = _
    rw [if_neg hlen0, ht]
  refine ⟨hkey, ?_, rfl, rfl⟩
  have h2 : (prevSong s).2 = jsIndex s.playlist
      (jsMod (jsAdd (jsAdd s.currentIndex (-1)) (s.playlist.length : Int))
        (s.playlist.length : Int)) := rfl
  rw [h2, hkey]
  show (if ((n - 1 + (s.playlist.length : Int)) % (s.playlist.length : Int)) < 0
    then none
    else s.playlist[((n - 1 + (s.playlist.length : Int)) %
      (s.playlist.length : Int)).toNat]?) = _
  rw [if_neg (not_lt.mpr hm0)]

/-- Witness for C5: on `[A, B, C]` with the cursor at 0 and shuffle enabled,
`prevSong` wraps to index 2 and returns track C. -/
theorem prevSong_modular_decrement_witness :
    (prevSong { playlist := demo3, currentIndex := .num 0, isShuffleOn := true
      }).1.currentIndex = JsIdx.num 2 ∧
    (prevSong { playlist := demo3, currentIndex := .num 0, isShuffleOn := true
      }).2 = some demoC := by
  have h := prevSong_modular_decrement_ignores_shuffle
    { playlist := demo3, currentIndex := .num 0, isShuffleOn := true }
    false 0 (by decide) rfl (by decide)
  refine ⟨?_, ?_⟩
  · rw [h.1]
    decide
  · rw [h.2.1]
    decide

/-- Claim C6: with shuffle off, each `nextSong` call advances the cursor to
`(n + 1) % len`, and calling it `len` times returns the cursor — and hence the
current track — to its original value (cyclic invariant). -/
theorem nextSong_cycles_after_length_steps (r : ℚ) (s : PState) (n : Int)
    (hsh : s.isShuffleOn = false) (hlen : 0 < s.playlist.length)
    (hidx : s.currentIndex = .num n) (hn : 0 ≤ n)
    (hlt : n < (s.playlist.length : Int)) :
    (iterNext r s.playlist.length s).currentIndex = s.currentIndex ∧
    getCurrentSong (iterNext r s.playlist.length s) = getCurrentSong s ∧
    (nextSong r s).1.currentIndex =
      .num ((n + 1) % (s.playlist.length : Int)) := by
  obtain ⟨hp, hs2, hi⟩ := iterNext_shuffleOff r s.playlist.length s n hsh hlen hidx hn hlt
  have hmod : (n + (s.playlist.length : Int)) % (s.playlist.length : Int) = n := by
    rw [show n + (s.playlist.length : Int) = n + (s.playlist.length : Int) * 1 by ring,
      Int.add_mul_emod_self_left, Int.emod_eq_of_lt hn hlt]
  refine ⟨?_, ?_, ?_⟩
  · rw [hi, hidx, hmod]
  · unfold getCurrentSong
    rw [hp, hi, hidx, hmod]
  · rw [nextSong_shuffleOff_step r s n hsh hlen hidx hn]

/-- Witness for C6: on `[A, B, C]` starting at index 0 with shuffle off, three
`nextSong` calls return the cursor to 0 (and the current track to A), and a
single call advances it to 1 (track B). -/
theorem nextSong_cycles_witness :
    (iterNext 0 demo3.length
      { playlist := demo3, currentIndex := .num 0, isShuffleOn := false
      }).currentIndex = JsIdx.num 0 ∧
    getCurrentSong (iterNext 0 demo3.length
      { playlist := demo3, currentIndex := .num 0, isShuffleOn := false }) =
      some demoA ∧
    (nextSong 0 { playlist := demo3, currentIndex := .num 0, isShuffleOn := false
      }).1.currentIndex = JsIdx.num 1 := by
  have h := nextSong_cycles_after_length_steps 0
    { playlist := demo3, currentIndex := .num 0, isShuffleOn := false }
    0 rfl (by decide) rfl (by decide) (by decide)
  refine ⟨h.1, ?_, ?_⟩
  · rw [h.2.1]
    decide
  · rw [h.2.2]
    decide

/-- Claim C7 counterexample: on an empty playlist with cursor 2 and shuffle
off, `nextSong` does return `undefined`, but it writes the cursor to `NaN`
(`(2 + 1) % 0`), so the queue state is not left unchanged — the call is not a
no-op on `currentIndex`. -/
theorem nextSong_empty_mutates_cursor_cex :
    (nextSong 0 { playlist := [], currentIndex := .num 2, isShuffleOn := false
      }).2 = none ∧
    (nextSong 0 { playlist := [], currentIndex := .num 2, isShuffleOn := false
      }).1.currentIndex = JsIdx.nan ∧
    (nextSong 0 { playlist := [], currentIndex := .num 2, isShuffleOn := false
      }).1.currentIndex ≠
      ({ playlist := [], currentIndex := .num 2, isShuffleOn := false
        } : PState).currentIndex := by
  refine ⟨rfl, rfl, ?_⟩
  decide

/-- Claim C7 amended: on an empty playlist `nextSong` returns `undefined` and
leaves `items` and `shuffleEnabled` unchanged, but it does write
`currentIndex`: to 0 with shuffle on (`Math.floor(r * 0) = 0`) and to `NaN`
with shuffle off (`(i + 1) % 0`) — it is not a no-op on the cursor. -/
theorem nextSong_empty_returns_undefined_sets_cursor (r : ℚ) (s : PState)
    (h : s.playlist = []) :
    (nextSong r s).2 = none ∧
    (nextSong r s).1.playlist = s.playlist ∧
    (nextSong r s).1.isShuffleOn = s.isShuffleOn ∧
    (nextSong r s).1.currentIndex =
      (if s.isShuffleOn then JsIdx.num 0 else JsIdx.nan) := by
  cases s with
  | mk pl ci sh =>
      simp only at h
      subst h
      cases sh <;> cases ci <;>
        simp [nextSong, jsAdd, jsMod, jsIndex]

/-- Witness for the amended C7: on the empty playlist with cursor 5 and
shuffle on, `nextSong` returns `undefined`, keeps the playlist and the flag,
and writes the cursor to 0. -/
theorem nextSong_empty_sets_cursor_witness :
    ({ playlist := [], currentIndex := .num 5, isShuffleOn := true
      } : PState).playlist = [] ∧
    ((nextSong (1/2) { playlist := [], currentIndex := .num 5, isShuffleOn := true
      }).2 = none ∧
     (nextSong (1/2) { playlist := [], currentIndex := .num 5, isShuffleOn := true
      }).1.playlist =
       ({ playlist := [], currentIndex := .num 5, isShuffleOn := true
         } : PState).playlist ∧
     (nextSong (1/2) { playlist := [], currentIndex := .num 5, isShuffleOn := true
      }).1.isShuffleOn =
       ({ playlist := [], currentIndex := .num 5, isShuffleOn := true
         } : PState).isShuffleOn ∧
     (nextSong (1/2) { playlist := [], currentIndex := .num 5, isShuffleOn := true
      }).1.currentIndex =
       (if ({ playlist := [], currentIndex := .num 5, isShuffleOn := true
         } : PState).isShuffleOn then JsIdx.num 0 else JsIdx.nan)) :=
  ⟨rfl, nextSong_empty_returns_undefined_sets_cursor (1/2)
    { playlist := [], currentIndex := .num 5, isShuffleOn := true } rfl⟩

/-- Claim C8: for every completed touch gesture on the open fullscreen player
(`handleTouchStart` recording the start position, then `handleTouchEnd`), the
view transitions to closed exactly when `endY - startY` exceeds the threshold
100; otherwise it remains open. -/
theorem touch_gesture_close_threshold (startY endY : ℚ) (g : GestureState)
    (hopen : g.isOpen = true) :
    (handleTouchEnd endY (handleTouchStart startY g)).isOpen = false ↔
      endY - startY > 100 := by
  unfold handleTouchEnd handleTouchStart
  by_cases hc : endY > startY + 100
  · simp only [hc, if_pos]
    constructor
    · intro _
      linarith
    · intro _
      trivial
  · simp only [hc, if_neg, not_false_eq_true]
    constructor
    · intro h
      rw [hopen] at h
      cases h
    · intro h
      exact absurd (by linarith : endY > startY + 100) hc

/-- Witness for C8: from the open view, a touch from Y=300 to Y=450
(delta 150 > 100) closes it, and a touch from Y=300 to Y=340 (delta 40) leaves
it open. -/
theorem touch_gesture_close_threshold_witness :
    ({ touchstartY := 0, isOpen := true } : GestureState).isOpen = true ∧
    (handleTouchEnd 450 (handleTouchStart 300
      { touchstartY := 0, isOpen := true })).isOpen = false ∧
    (handleTouchEnd 340 (handleTouchStart 300
      { touchstartY := 0, isOpen := true })).isOpen = true := by
  refine ⟨rfl, ?_, ?_⟩
  · exact (touch_gesture_close_threshold 300 450
      { touchstartY := 0, isOpen := true } rfl).mpr (by norm_num)
  · have h := (touch_gesture_close_threshold 300 340
      { touchstartY := 0, isOpen := true } rfl)
    by_contra hne
    have : (handleTouchEnd 340 (handleTouchStart 300
        { touchstartY := 0, isOpen := true })).isOpen = false := by
      cases hv : (handleTouchEnd 340 (handleTouchStart 300
          { touchstartY := 0, isOpen := true })).isOpen
      · rfl
      · exact absurd hv hne
    have h40 : (340 : ℚ) - 300 > 100 := h.mp this
    norm_num at h40

/-- Claim C9 counterexample: the volume-slider handler forwards
`value / 100` to the audio element with no clamping: for the out-of-range
input 200 it forwards 2, not the clamped `min 1 (max 0 (200 / 100)) = 1`. -/
theorem volume_handler_unclamped_cex :
    volumeInputHandler 200 = 2 ∧
    min 1 (max 0 (volumeInputHandler 200)) = 1 ∧
    volumeInputHandler 200 ≠ min 1 (max 0 (volumeInputHandler 200)) := by
  norm_num [volumeInputHandler]

/-- Claim C9 amended: the handler forwards exactly `value / 100`, unclamped;
for slider values in `[0, 100]` (the range the input element produces) the
forwarded volume lies in `[0, 1]` and coincides with the clamp, but
out-of-range inputs are forwarded without clamping. -/
theorem volume_handler_divides_without_clamp (v : ℚ) :
    volumeInputHandler v = v / 100 ∧
    (0 ≤ v → v ≤ 100 →
      0 ≤ volumeInputHandler v ∧ volumeInputHandler v ≤ 1 ∧
      volumeInputHandler v = min 1 (max 0 (v / 100))) := by
  refine ⟨rfl, fun h0 h100 => ?_⟩
  have hlo : 0 ≤ v / 100 := by positivity
  have hhi : v / 100 ≤ 1 := by
    rw [div_le_one (by norm_num)]
    linarith
  refine ⟨hlo, hhi, ?_⟩
  rw [volumeInputHandler, max_eq_right hlo, min_eq_right hhi]

/-- Witness for the amended C9: the in-range slider value 50 is forwarded as
`1/2`, which equals its clamp. -/
theorem volume_handler_divides_witness :
    ((0 : ℚ) ≤ 50 ∧ (50 : ℚ) ≤ 100) ∧
    (0 ≤ volumeInputHandler 50 ∧ volumeInputHandler 50 ≤ 1 ∧
      volumeInputHandler 50 = min 1 (max 0 (50 / 100))) :=
  ⟨⟨by norm_num, by norm_num⟩,
   (volume_handler_divides_without_clamp 50).2 (by norm_num) (by norm_num)⟩

/-- Claim C10: the dismissal gesture is strictly directional — the open view
closes only when the end Y exceeds the start Y by more than 100 (a downward
swipe), and an upward swipe (`endY ≤ startY`) of any magnitude leaves the view
open. -/
theorem upward_swipe_never_closes (startY endY : ℚ) (g : GestureState)
    (hopen : g.isOpen = true) :
    ((handleTouchEnd endY (handleTouchStart startY g)).isOpen = false →
      endY - startY > 100) ∧
    (endY ≤ startY →
      (handleTouchEnd endY (handleTouchStart startY g)).isOpen = true) := by
  constructor
  · intro hclosed
    unfold handleTouchEnd handleTouchStart at hclosed
    by_cases hc : endY > startY + 100
    · linarith
    · rw [if_neg ?_] at hclosed
      · rw [hopen] at hclosed
        cases hclosed
      · exact hc
  · intro hup
    unfold handleTouchEnd handleTouchStart
    rw [if_neg ?_]
    · exact hopen
    · intro hgt
      simp only at hgt
      linarith

/-- Witness for C10: a large upward swipe (from Y=300 up to Y=0) leaves the
open view open. -/
theorem upward_swipe_never_closes_witness :
    (0 : ℚ) ≤ 300 ∧
    (handleTouchEnd 0 (handleTouchStart 300
      { touchstartY := 7, isOpen := true })).isOpen = true :=
  ⟨by norm_num,
   (upward_swipe_never_closes 300 0
     { touchstartY := 7, isOpen := true } rfl).2 (by norm_num)⟩

end VibAura
